import Mathlib

/-!
Shallow embedding of the vitamins-chatbot service (src/main.py) and proofs of
the specified properties.  Python dictionaries are modelled as association
lists over a JSON-like value type; the three external services (embedding,
vector index, chat completion) are modelled as an environment of fallible
functions, and every fallible step returns `Except String`.
-/

/-- JSON-like values stored in product metadata and message dictionaries. -/
inductive JValue where
  | null : JValue
  | str (s : String) : JValue
  | num (q : ℚ) : JValue
  | bool (b : Bool) : JValue
deriving DecidableEq

/-- A Python dict is modelled as an association list (insertion order kept). -/
abbrev Dict := List (String × JValue)

/-- Lookup of a key, `d[k]` / `d.get(k)` without default. -/
def dictGet (d : Dict) (k : String) : Option JValue :=
  (d.find? (fun kv => kv.1 == k)).map Prod.snd

/-- Python `d[k] = v`: overwrite in place if the key exists, else append. -/
def dictSet (d : Dict) (k : String) (v : JValue) : Dict :=
  if d.any (fun kv => kv.1 == k) then
    d.map (fun kv => if kv.1 == k then (k, v) else kv)
  else
    d ++ [(k, v)]

/-- The keys of a dict, in order. -/
def dictKeys (d : Dict) : List String := d.map Prod.fst

/-- Python `d.get(k)` (defaults to `None`). -/
def pyGet (d : Dict) (k : String) : JValue :=
  (dictGet d k).getD JValue.null

/-- Python truthiness of a value, as used by `if product.get('status')`. -/
def JValue.truthy : JValue → Bool
  | .null => false
  | .str s => s != ""
  | .num q => q != 0
  | .bool b => b

/-- Python `str()` rendering of a value, used by f-string interpolation. -/
def JValue.display : JValue → String
  | .null => "None"
  | .str s => s
  | .num q => toString q
  | .bool b => if b then "True" else "False"

/-- Python `str(d.get(k, default))` where `default` is a string. -/
def pyGetStr (d : Dict) (k : String) (dflt : String) : String :=
  match dictGet d k with
  | some v => v.display
  | none => dflt

/-- Python character slicing `s[:n]`. -/
def pyTake (s : String) (n : Nat) : String := String.mk (s.data.take n)

/-- One scored match returned by the vector index (`results.matches` entry). -/
structure MatchResult where
  score : ℚ
  metadata : Dict
deriving DecidableEq

/-- The hard-coded relevance threshold `0.7` of `search_products`. -/
def relevanceThreshold : ℚ := mkRat 7 10

/-- The loop body of `search_products`: keep a match when `match.score > 0.7`,
attaching the score to the metadata (`product['score'] = match.score`). -/
def filterStep (acc : List Dict) (m : MatchResult) : List Dict :=
  if relevanceThreshold < m.score then
    acc ++ [dictSet m.metadata "score" (JValue.num m.score)]
  else
    acc

/-- The relevance-filter loop of `search_products` (src/main.py lines 77-84). -/
def relevance_filter (ms : List MatchResult) : List Dict :=
  ms.foldl filterStep []

/-- Metadata with the score attached, as built for each kept match. -/
def addScore (m : MatchResult) : Dict :=
  dictSet m.metadata "score" (JValue.num m.score)

/-- The static system prompt `SYSTEM_PROMPT` of src/main.py. -/
def SYSTEM_PROMPT : String :=
  "Ти - розумний помічник інтернет-магазину вітамінів та БАДів в Україні.\n\nВАЖЛИВІ ПРАВИЛА:\n1. Ти НЕ є медичним працівником і НЕ надаєш медичні консультації\n2. Завжди рекомендуй проконсультуватися з лікарем перед прийомом будь-яких добавок\n3. Відповідай ввічливо, дружньо та професійно\n4. Якщо не знаєш відповіді - чесно скажи про це\n5. Використовуй інформацію з бази даних товарів для рекомендацій\n6. Можеш спілкуватися українською та російською мовами\n\nТВОЇ ФУНКЦІЇ:\n- Відповідати на питання про товари (склад, ціна, наявність)\n- Рекомендувати товари на основі потреб користувача\n- Допомагати з навігацією по сайту\n- Відповідати на загальні питання про добавки\n\nДИСКЛЕЙМЕР (додавай при необхідності):\n\"⚠️ Ця інформація не є медичною рекомендацією. Перед прийомом будь-яких добавок обов\x27язково проконсультуйтеся з лікарем.\"\n\nЯкщо користувач запитує про конкретні товари або просить рекомендації - використовуй контекст з бази даних."

/-- The description text used by the formatter:
`str(product.get('description', 'Немає опису'))`. -/
def descriptionText (p : Dict) : String :=
  pyGetStr p "description" "Немає опису"

/-- One numbered product block of `format_products_context`
(src/main.py lines 92-98). -/
def renderProduct (i : Nat) (p : Dict) : String :=
  toString i ++ ". " ++ pyGetStr p "name" "Без назви" ++ "\n" ++
  "   Бренд: " ++ pyGetStr p "brand" "Не вказано" ++ "\n" ++
  "   Ціна: " ++ pyGetStr p "price" "Не вказано" ++ " грн\n" ++
  "   Наявність: " ++
    (if (pyGet p "status").truthy then "В наявності" else "Немає в наявності") ++
    "\n" ++
  "   Опис: " ++ pyTake (descriptionText p) 200 ++ "...\n" ++
  "   SKU: " ++ pyGetStr p "sku" "N/A" ++ "\n\n"

/-- The enumerated rendering loop (`enumerate(products, 1)`). -/
def renderProductsFrom (i : Nat) : List Dict → String
  | [] => ""
  | p :: rest => renderProduct i p ++ renderProductsFrom (i + 1) rest

/-- `format_products_context` (src/main.py lines 86-100). -/
def format_products_context (products : List Dict) : String :=
  if products.isEmpty then "Товари не знайдені."
  else "ЗНАЙДЕНІ ТОВАРИ:\n\n" ++ renderProductsFrom 1 products

/-- The three external services, modelled as fallible functions: the embedding
call of `get_embedding`, the vector-index query `index.query`, and the chat
completion `openai_client.chat.completions.create` (its text result). -/
structure Env where
  embed : String → Except String (List ℚ)
  query : List ℚ → Nat → Except String (List MatchResult)
  complete : List Dict → Except String String

/-- The request body `ChatMessage` (message, optional conversation history). -/
structure ChatRequest where
  message : String
  conversation_history : Option (List Dict)

/-- The success body `ChatResponse` (model reply plus projected products). -/
structure ChatOk where
  response : String
  products : List Dict
deriving DecidableEq

/-- `search_products` (src/main.py lines 67-84): embed the query, query the
index with `top_k`, and keep matches scoring strictly above the threshold. -/
def search_products (env : Env) (query : String) (top_k : Nat) :
    Except String (List Dict) := do
  let queryEmbedding ← env.embed query
  let results ← env.query queryEmbedding top_k
  pure (relevance_filter results)

/-- A `{"role": role, "content": content}` message dict. -/
def mkMessage (role content : String) : Dict :=
  [("role", JValue.str role), ("content", JValue.str content)]

/-- Python `history[-10:]`: the last (at most) ten entries. -/
def lastTen (history : List Dict) : List Dict :=
  history.drop (history.length - 10)

/-- The message-list assembly of the handler (src/main.py lines 114-121):
two system messages, the last ten history entries, the new user message. -/
def buildMessages (productsContext : String) (history : List Dict)
    (userMessage : String) : List Dict :=
  [mkMessage "system" SYSTEM_PROMPT, mkMessage "system" productsContext]
    ++ lastTen history ++ [mkMessage "user" userMessage]

/-- The response projection of one product (src/main.py lines 135-142). -/
def projectProduct (p : Dict) : Dict :=
  [("name", pyGet p "name"), ("price", pyGet p "price"),
   ("brand", pyGet p "brand"), ("sku", pyGet p "sku"),
   ("product_id", pyGet p "product_id"), ("status", pyGet p "status")]

/-- The six field names of the response projection, in projection order. -/
def sixFields : List String :=
  ["name", "price", "brand", "sku", "product_id", "status"]

/-- The body of the `try:` block of the `/chat` handler
(src/main.py lines 105-143). -/
def chat_body (env : Env) (req : ChatRequest) : Except String ChatOk := do
  let userMessage := req.message
  let history := req.conversation_history.getD []
  let products ← search_products env userMessage 5
  let productsContext := format_products_context products
  let messages := buildMessages productsContext history userMessage
  let aiResponse ← env.complete messages
  pure { response := aiResponse, products := (products.take 3).map projectProduct }

/-- Outcome of the HTTP handler: a success body, or an HTTP error
(status code, detail). -/
inductive HandlerResult where
  | ok (response : ChatOk) : HandlerResult
  | error (statusCode : Nat) (detail : String) : HandlerResult
deriving DecidableEq

/-- The `/chat` handler (src/main.py lines 102-146): run the body, and turn
any raised failure into `HTTPException(status_code=500, detail=str(e))`. -/
def chat (env : Env) (req : ChatRequest) : HandlerResult :=
  match chat_body env req with
  | .ok r => .ok r
  | .error e => .error 500 e

/-- Decidable equality of `Except` outcomes, for evaluating concrete runs. -/
instance {e a : Type} [DecidableEq e] [DecidableEq a] : DecidableEq (Except e a) := fun x y =>
  match x, y with
  | .ok u, .ok v =>
      if h : u = v then isTrue (by rw [h])
      else isFalse (by intro hc; cases hc; exact h rfl)
  | .error u, .error v =>
      if h : u = v then isTrue (by rw [h])
      else isFalse (by intro hc; cases hc; exact h rfl)
  | .ok _, .error _ => isFalse (by intro hc; cases hc)
  | .error _, .ok _ => isFalse (by intro hc; cases hc)

/-! ### Helper lemmas -/

theorem string_data_append (a b : String) : (a ++ b).data = a.data ++ b.data := by
  cases a; cases b; rfl

theorem string_append_assoc (a b c : String) : a ++ b ++ c = a ++ (b ++ c) := by
  cases a; cases b; cases c
  exact congrArg String.mk (List.append_assoc _ _ _)

theorem string_empty_append (s : String) : "" ++ s = s := by
  cases s
  exact congrArg String.mk (List.nil_append _)

theorem foldl_filterStep_eq (ms : List MatchResult) (acc : List Dict) :
    ms.foldl filterStep acc
      = acc ++ (ms.filter (fun m => decide (relevanceThreshold < m.score))).map addScore := by
  induction ms generalizing acc with
  | nil => simp
  | cons m rest ih =>
    by_cases h : relevanceThreshold < m.score
    · simp [List.foldl_cons, filterStep, h, ih, addScore, List.filter_cons]
    · simp [List.foldl_cons, filterStep, h, ih, List.filter_cons]

/-! ### C1 -/

/-- C1: the relevance filter of `search_products` keeps exactly the matches
whose score is strictly greater than 0.7 (attaching the score to each kept
product), in input order (the kept matches form an order-preserving
subsequence of the input), and the empty input yields the empty output. -/
theorem relevance_filter_exact (ms : List MatchResult) :
    relevance_filter ms
        = (ms.filter (fun m => decide (relevanceThreshold < m.score))).map addScore
    ∧ List.Sublist (ms.filter (fun m => decide (relevanceThreshold < m.score))) ms
    ∧ relevance_filter [] = [] :=
  ⟨by simpa [relevance_filter] using foldl_filterStep_eq ms [],
   List.filter_sublist ms, rfl⟩

/-! ### C9 -/

/-- C9: the assembled message list always has length
`3 + min 10 (history length)` — two system messages, the truncated history,
one user message — and therefore never exceeds 13 entries. -/
theorem buildMessages_length (ctx userMsg : String) (history : List Dict) :
    (buildMessages ctx history userMsg).length = 3 + min 10 history.length
    ∧ (buildMessages ctx history userMsg).length ≤ 13 := by
  constructor <;>
  · simp [buildMessages, lastTen]
    omega

/-! ### C3 -/

/-- C3: when the history has more than 10 entries, the assembled list is the
two system messages, then exactly the last 10 history entries unmodified and
in their original order, then the new user message. -/
theorem buildMessages_truncates_history (ctx userMsg : String)
    (history : List Dict) (h : 10 < history.length) :
    buildMessages ctx history userMsg
        = [mkMessage "system" SYSTEM_PROMPT, mkMessage "system" ctx]
            ++ lastTen history ++ [mkMessage "user" userMsg]
    ∧ (lastTen history).length = 10
    ∧ history.take (history.length - 10) ++ lastTen history = history := by
  refine ⟨rfl, ?_, ?_⟩
  · simp [lastTen]
    omega
  · simp [lastTen, List.take_append_drop]

/-- Witness for C3 at a concrete 11-entry history. -/
theorem buildMessages_truncates_history_witness :
    buildMessages "ctx" (List.replicate 11 (mkMessage "user" "hi")) "msg"
        = [mkMessage "system" SYSTEM_PROMPT, mkMessage "system" "ctx"]
            ++ lastTen (List.replicate 11 (mkMessage "user" "hi"))
            ++ [mkMessage "user" "msg"]
    ∧ (lastTen (List.replicate 11 (mkMessage "user" "hi"))).length = 10
    ∧ (List.replicate 11 (mkMessage "user" "hi")).take
          ((List.replicate 11 (mkMessage "user" "hi")).length - 10)
        ++ lastTen (List.replicate 11 (mkMessage "user" "hi"))
        = List.replicate 11 (mkMessage "user" "hi") :=
  buildMessages_truncates_history "ctx" "msg"
    (List.replicate 11 (mkMessage "user" "hi")) (by simp)

theorem chat_body_eq (env : Env) (req : ChatRequest) (ps : List Dict)
    (hs : search_products env req.message 5 = Except.ok ps) :
    chat_body env req
      = (env.complete (buildMessages (format_products_context ps)
          (req.conversation_history.getD []) req.message)).map
          (fun ai => ⟨ai, (ps.take 3).map projectProduct⟩) := by
  unfold chat_body
  dsimp only
  rw [hs]
  rfl

theorem chat_body_eq_error (env : Env) (req : ChatRequest) (e : String)
    (hs : search_products env req.message 5 = Except.error e) :
    chat_body env req = Except.error e := by
  unfold chat_body
  dsimp only
  rw [hs]
  rfl

theorem search_products_embed_error (env : Env) (q : String) (k : Nat)
    (e : String) (he : env.embed q = Except.error e) :
    search_products env q k = Except.error e := by
  unfold search_products
  rw [he]
  rfl

theorem search_products_query_error (env : Env) (q : String) (k : Nat)
    (v : List ℚ) (e : String) (he : env.embed q = Except.ok v)
    (hq : env.query v k = Except.error e) :
    search_products env q k = Except.error e := by
  unfold search_products
  rw [he]
  show (do
    let results ← env.query v k
    pure (relevance_filter results) : Except String (List Dict)) = Except.error e
  rw [hq]
  rfl

theorem search_products_ok (env : Env) (q : String) (k : Nat)
    (v : List ℚ) (ms : List MatchResult) (he : env.embed q = Except.ok v)
    (hq : env.query v k = Except.ok ms) :
    search_products env q k = Except.ok (relevance_filter ms) := by
  unfold search_products
  rw [he]
  show (do
    let results ← env.query v k
    pure (relevance_filter results) : Except String (List Dict)) = _
  rw [hq]
  rfl

/-! ### C4 -/

/-- C4: a failure raised by any pipeline step (embedding, index query, or
completion) is caught once at the top of the handler and becomes a single
HTTP 500 error whose detail is the error text; the error outcome is never an
`ok`, so no partial results and no products list are returned. -/
theorem handler_catches_failures (env : Env) (req : ChatRequest) (e : String) :
    (chat_body env req = Except.error e →
        chat env req = HandlerResult.error 500 e)
    ∧ (env.embed req.message = Except.error e →
        chat env req = HandlerResult.error 500 e)
    ∧ (∀ v, env.embed req.message = Except.ok v →
        env.query v 5 = Except.error e →
        chat env req = HandlerResult.error 500 e)
    ∧ (∀ ps, search_products env req.message 5 = Except.ok ps →
        env.complete (buildMessages (format_products_context ps)
          (req.conversation_history.getD []) req.message) = Except.error e →
        chat env req = HandlerResult.error 500 e)
    ∧ (chat_body env req = Except.error e →
        ∀ r, chat env req ≠ HandlerResult.ok r) := by
  have hbody : ∀ e', chat_body env req = Except.error e' →
      chat env req = HandlerResult.error 500 e' := by
    intro e' hb
    unfold chat
    rw [hb]
  refine ⟨hbody e, ?_, ?_, ?_, ?_⟩
  · intro he
    exact hbody e (chat_body_eq_error env req e
      (search_products_embed_error env req.message 5 e he))
  · intro v hv hq
    exact hbody e (chat_body_eq_error env req e
      (search_products_query_error env req.message 5 v e hv hq))
  · intro ps hs hc
    apply hbody e
    rw [chat_body_eq env req ps hs, hc]
    rfl
  · intro hb r
    rw [hbody e hb]
    simp

/-- A concrete environment whose embedding call fails. -/
def envFailEmbed : Env :=
  { embed := fun _ => Except.error "boom",
    query := fun _ _ => Except.ok [],
    complete := fun _ => Except.ok "ok" }

/-- Witness for C4: a concrete failing embedding call yields HTTP 500 with
the error text as detail. -/
theorem handler_catches_failures_witness :
    chat envFailEmbed ⟨"hello", none⟩ = HandlerResult.error 500 "boom" :=
  (handler_catches_failures envFailEmbed ⟨"hello", none⟩ "boom").2.1 rfl

/-! ### C5 -/

/-- C5: zero products above the threshold is not an error: the formatter
returns the fixed sentinel on the empty list, and the pipeline proceeds
normally, still invoking the completion client and succeeding with its
reply and an empty products list. -/
theorem empty_results_sentinel (env : Env) (req : ChatRequest) (ai : String)
    (hs : search_products env req.message 5 = Except.ok [])
    (hc : env.complete (buildMessages "Товари не знайдені."
        (req.conversation_history.getD []) req.message) = Except.ok ai) :
    format_products_context [] = "Товари не знайдені."
    ∧ chat env req = HandlerResult.ok ⟨ai, []⟩ := by
  refine ⟨rfl, ?_⟩
  have h := chat_body_eq env req [] hs
  rw [show format_products_context [] = "Товари не знайдені." from rfl] at h
  rw [hc] at h
  unfold chat
  rw [h]
  rfl

/-- A concrete environment whose only match scores 0.6 and is filtered out. -/
def envC5 : Env :=
  { embed := fun _ => Except.ok [1],
    query := fun _ _ => Except.ok [⟨mkRat 3 5, [("name", JValue.str "B12")]⟩],
    complete := fun _ => Except.ok "відповідь" }

/-- Witness for C5: with one match scoring 0.6 the filter leaves nothing,
the sentinel context is used, and the handler still returns the model
reply with an empty products list. -/
theorem empty_results_sentinel_witness :
    format_products_context [] = "Товари не знайдені."
    ∧ chat envC5 ⟨"питання", none⟩ = HandlerResult.ok ⟨"відповідь", []⟩ :=
  empty_results_sentinel envC5 ⟨"питання", none⟩ "відповідь" (by decide) rfl

/-! ### C8 -/

/-- C8: when the request omits the conversation history, the assembled list
is exactly three messages — system (static prompt), system (product
context), user (new message) — and the handler body hands exactly that
three-message list to the completion client. -/
theorem no_history_three_messages (req : ChatRequest) (ctx : String)
    (h : req.conversation_history = none) :
    buildMessages ctx (req.conversation_history.getD []) req.message
        = [mkMessage "system" SYSTEM_PROMPT, mkMessage "system" ctx,
           mkMessage "user" req.message]
    ∧ (buildMessages ctx (req.conversation_history.getD []) req.message).length
        = 3
    ∧ ∀ env ps, search_products env req.message 5 = Except.ok ps →
        chat_body env req
          = (env.complete [mkMessage "system" SYSTEM_PROMPT,
              mkMessage "system" (format_products_context ps),
              mkMessage "user" req.message]).map
              (fun ai => ⟨ai, (ps.take 3).map projectProduct⟩) := by
  refine ⟨?_, ?_, ?_⟩
  · rw [h]
    rfl
  · rw [h]
    rfl
  · intro env ps hs
    have h2 := chat_body_eq env req ps hs
    rw [h] at h2
    exact h2

/-- A concrete environment whose index returns no matches. -/
def envC8 : Env :=
  { embed := fun _ => Except.ok [1],
    query := fun _ _ => Except.ok [],
    complete := fun _ => Except.ok "ok" }

/-- The concrete request without a conversation history. -/
def reqC8 : ChatRequest := ⟨"msg", none⟩

/-- Witness for C8 at a concrete history-free request. -/
theorem no_history_three_messages_witness :
    buildMessages "c" (reqC8.conversation_history.getD []) reqC8.message
        = [mkMessage "system" SYSTEM_PROMPT, mkMessage "system" "c",
           mkMessage "user" reqC8.message]
    ∧ (buildMessages "c" (reqC8.conversation_history.getD []) reqC8.message).length
        = 3
    ∧ chat_body envC8 reqC8
        = (envC8.complete [mkMessage "system" SYSTEM_PROMPT,
            mkMessage "system" (format_products_context []),
            mkMessage "user" reqC8.message]).map
            (fun ai => ⟨ai, (([] : List Dict).take 3).map projectProduct⟩) :=
  ⟨(no_history_three_messages reqC8 "c" rfl).1,
   (no_history_three_messages reqC8 "c" rfl).2.1,
   (no_history_three_messages reqC8 "c" rfl).2.2 envC8 [] rfl⟩

/-! ### C2 -/

/-- The keys of `p` form a strict subset of `fields`. -/
def keysStrictSubsetOf (p : Dict) (fields : List String) : Prop :=
  (∀ k ∈ dictKeys p, k ∈ fields) ∧ ∃ k ∈ fields, k ∉ dictKeys p

/-- Concrete metadata for one matching product with all six fields. -/
def metaC2 : Dict :=
  [("name", JValue.str "Vitamin D3"), ("price", JValue.num 250),
   ("brand", JValue.str "NOW"), ("sku", JValue.str "VD3"),
   ("product_id", JValue.str "p1"), ("status", JValue.bool true),
   ("description", JValue.str "Sunshine vitamin")]

/-- The C2 product once the search has attached its score. -/
def scoredC2 : Dict := dictSet metaC2 "score" (JValue.num (mkRat 9 10))

/-- A concrete environment returning one match scoring 0.9. -/
def envC2 : Env :=
  { embed := fun _ => Except.ok [1],
    query := fun _ _ => Except.ok [⟨mkRat 9 10, metaC2⟩],
    complete := fun _ => Except.ok "ok" }

/-- The concrete request for the C2 run. -/
def reqC2 : ChatRequest := ⟨"hello", none⟩

/-- C2 counterexample: in a concrete successful run the single response
entry carries exactly the six projected fields, so its key set equals
{name, price, brand, sku, product_id, status} and is not a strict subset
of that set. -/
theorem response_fields_not_strict_subset :
    chat envC2 reqC2 = HandlerResult.ok ⟨"ok", [projectProduct scoredC2]⟩
    ∧ dictKeys (projectProduct scoredC2) = sixFields
    ∧ ¬ keysStrictSubsetOf (projectProduct scoredC2) sixFields :=
  ⟨by decide, rfl, by unfold keysStrictSubsetOf; decide⟩

/-- C2 amended: the response products are the first three filtered products
in filtered order (hence at most 3), each projected onto exactly the six
fields name, price, brand, sku, product_id, status. -/
theorem response_products_projection (env : Env) (req : ChatRequest)
    (r : ChatOk) (filtered : List Dict)
    (hs : search_products env req.message 5 = Except.ok filtered)
    (hr : chat_body env req = Except.ok r) :
    r.products = (filtered.take 3).map projectProduct
    ∧ r.products.length ≤ 3
    ∧ ∀ q ∈ r.products, dictKeys q = sixFields := by
  rw [chat_body_eq env req filtered hs] at hr
  cases hc : env.complete (buildMessages (format_products_context filtered)
      (req.conversation_history.getD []) req.message) with
  | ok ai =>
      rw [hc] at hr
      simp only [Except.map, Except.ok.injEq] at hr
      subst hr
      refine ⟨rfl, ?_, ?_⟩
      · simp [List.length_take]
      · intro q hq
        obtain ⟨p, hp, rfl⟩ := List.mem_map.mp hq
        rfl
  | error e =>
      rw [hc] at hr
      simp only [Except.map] at hr
      cases hr

/-- Witness for the amended C2 at the concrete one-product run. -/
theorem response_products_projection_witness :
    ([projectProduct scoredC2] : List Dict)
        = (([scoredC2] : List Dict).take 3).map projectProduct
    ∧ ([projectProduct scoredC2] : List Dict).length ≤ 3
    ∧ ∀ q ∈ ([projectProduct scoredC2] : List Dict), dictKeys q = sixFields :=
  response_products_projection envC2 reqC2 ⟨"ok", [projectProduct scoredC2]⟩
    [scoredC2] (by decide) (by decide)

/-! ### C10 -/

/-- C10: every response entry has exactly the six keys name, price, brand,
sku, product_id, status; each comes from a filtered product, a key missing
from that product appears with a null value rather than being dropped; and
the ephemeral score attached during search never appears among the keys. -/
theorem response_entries_six_keys (env : Env) (req : ChatRequest)
    (r : ChatOk) (filtered : List Dict)
    (hs : search_products env req.message 5 = Except.ok filtered)
    (hr : chat_body env req = Except.ok r) :
    ∀ q ∈ r.products,
      dictKeys q = sixFields
      ∧ "score" ∉ dictKeys q
      ∧ ∃ p ∈ filtered, q = projectProduct p
          ∧ ∀ k ∈ sixFields,
              dictGet q k = some ((dictGet p k).getD JValue.null) := by
  rw [chat_body_eq env req filtered hs] at hr
  cases hc : env.complete (buildMessages (format_products_context filtered)
      (req.conversation_history.getD []) req.message) with
  | ok ai =>
      rw [hc] at hr
      simp only [Except.map, Except.ok.injEq] at hr
      subst hr
      intro q hq
      obtain ⟨p, hp, rfl⟩ := List.mem_map.mp hq
      refine ⟨rfl, (show "score" ∉ sixFields by decide), p, List.mem_of_mem_take hp, rfl, ?_⟩
      intro k hk
      simp only [sixFields, List.mem_cons, List.not_mem_nil, or_false] at hk
      rcases hk with rfl | rfl | rfl | rfl | rfl | rfl <;> rfl
  | error e =>
      rw [hc] at hr
      simp only [Except.map] at hr
      cases hr

/-- Concrete metadata missing the brand and product_id fields. -/
def metaC10 : Dict :=
  [("name", JValue.str "Zinc"), ("price", JValue.num 99),
   ("sku", JValue.str "ZN1"), ("status", JValue.bool false),
   ("description", JValue.str "mineral")]

/-- The C10 product once the search has attached its score. -/
def scoredC10 : Dict := dictSet metaC10 "score" (JValue.num (mkRat 4 5))

/-- A concrete environment returning one match scoring 0.8 whose metadata
misses two of the six projected fields. -/
def envC10 : Env :=
  { embed := fun _ => Except.ok [1],
    query := fun _ _ => Except.ok [⟨mkRat 4 5, metaC10⟩],
    complete := fun _ => Except.ok "ok" }

/-- The concrete request for the C10 run. -/
def reqC10 : ChatRequest := ⟨"zinc", some []⟩

/-- Witness for C10 at a concrete run with missing metadata fields. -/
theorem response_entries_six_keys_witness :
    dictKeys (projectProduct scoredC10) = sixFields
    ∧ "score" ∉ dictKeys (projectProduct scoredC10)
    ∧ ∃ p ∈ ([scoredC10] : List Dict), projectProduct scoredC10 = projectProduct p
        ∧ ∀ k ∈ sixFields,
            dictGet (projectProduct scoredC10) k
              = some ((dictGet p k).getD JValue.null) :=
  response_entries_six_keys envC10 reqC10 ⟨"ok", [projectProduct scoredC10]⟩
    [scoredC10] (by decide) (by decide) (projectProduct scoredC10)
    (List.mem_singleton.mpr rfl)

/-! ### C6 and C7 -/

theorem renderProductsFrom_split (p : Dict) (products : List Dict) (i : Nat)
    (hp : p ∈ products) :
    ∃ j s t, renderProductsFrom i products = s ++ renderProduct j p ++ t := by
  induction products generalizing i with
  | nil => cases hp
  | cons a rest ih =>
    rcases List.mem_cons.mp hp with rfl | hmem
    · refine ⟨i, "", renderProductsFrom (i + 1) rest, ?_⟩
      rw [string_empty_append]
      rfl
    · obtain ⟨j, s, t, h⟩ := ih (i + 1) hmem
      refine ⟨j, renderProduct i a ++ s, t, ?_⟩
      show renderProduct i a ++ renderProductsFrom (i + 1) rest = _
      rw [h]
      simp only [string_append_assoc]

theorem format_nonempty_split (products : List Dict) (p : Dict)
    (hp : p ∈ products) :
    ∃ j s t, format_products_context products = s ++ renderProduct j p ++ t := by
  obtain ⟨j, s, t, h⟩ := renderProductsFrom_split p products 1 hp
  refine ⟨j, "ЗНАЙДЕНІ ТОВАРИ:\n\n" ++ s, t, ?_⟩
  have hne : products.isEmpty = false := by
    cases products
    · cases hp
    · rfl
  unfold format_products_context
  rw [hne]
  show "ЗНАЙДЕНІ ТОВАРИ:\n\n" ++ renderProductsFrom 1 products = _
  rw [h]
  simp only [string_append_assoc]

theorem renderProduct_desc_split (i : Nat) (p : Dict) :
    renderProduct i p
      = (toString i ++ ". " ++ pyGetStr p "name" "Без назви" ++ "\n" ++
         "   Бренд: " ++ pyGetStr p "brand" "Не вказано" ++ "\n" ++
         "   Ціна: " ++ pyGetStr p "price" "Не вказано" ++ " грн\n" ++
         "   Наявність: " ++
           (if (pyGet p "status").truthy then "В наявності"
            else "Немає в наявності") ++ "\n")
        ++ ("   Опис: " ++ pyTake (descriptionText p) 200 ++ "...\n")
        ++ ("   SKU: " ++ pyGetStr p "sku" "N/A" ++ "\n\n") := by
  simp only [renderProduct, string_append_assoc]

/-- C6: for every product of a product list, the formatter renders the
product's description truncated to its first 200 characters and followed by
the ellipsis marker; when the description has at most 200 characters the
truncation keeps it whole, so the ellipsis is appended to the full
description as well. -/
theorem formatter_truncates_description (products : List Dict) (p : Dict)
    (hp : p ∈ products) :
    (∃ s t, format_products_context products
        = s ++ ("   Опис: " ++ pyTake (descriptionText p) 200 ++ "...\n") ++ t)
    ∧ ((descriptionText p).length ≤ 200 →
        pyTake (descriptionText p) 200 = descriptionText p) := by
  constructor
  · obtain ⟨j, s, t, h⟩ := format_nonempty_split products p hp
    rw [renderProduct_desc_split j p] at h
    refine ⟨s ++ (toString j ++ ". " ++ pyGetStr p "name" "Без назви" ++ "\n" ++
        "   Бренд: " ++ pyGetStr p "brand" "Не вказано" ++ "\n" ++
        "   Ціна: " ++ pyGetStr p "price" "Не вказано" ++ " грн\n" ++
        "   Наявність: " ++
          (if (pyGet p "status").truthy then "В наявності"
           else "Немає в наявності") ++ "\n"),
      ("   SKU: " ++ pyGetStr p "sku" "N/A" ++ "\n\n") ++ t, ?_⟩
    rw [h]
    simp only [string_append_assoc]
  · intro hlen
    have h2 : (descriptionText p).data.take 200 = (descriptionText p).data :=
      List.take_of_length_le hlen
    show String.mk ((descriptionText p).data.take 200) = descriptionText p
    rw [h2]

/-- A concrete product with a short description, for the formatter runs. -/
def productC6 : Dict :=
  [("name", JValue.str "B12"), ("description", JValue.str "short"),
   ("sku", JValue.str "B12-1")]

/-- Witness for C6 at a one-product list whose description is short. -/
theorem formatter_truncates_description_witness :
    (∃ s t, format_products_context [productC6]
        = s ++ ("   Опис: " ++ pyTake (descriptionText productC6) 200 ++ "...\n")
            ++ t)
    ∧ ((descriptionText productC6).length ≤ 200 →
        pyTake (descriptionText productC6) 200 = descriptionText productC6) :=
  formatter_truncates_description [productC6] productC6 (List.mem_singleton.mpr rfl)

/-- Suffix test on the character data of two strings. -/
def textEndsWith (s pat : String) : Bool :=
  List.isSuffixOf pat.data s.data

/-- A concrete product for the C7 run. -/
def productC7 : Dict :=
  [("name", JValue.str "Omega 3"), ("description", JValue.str "fish oil"),
   ("sku", JValue.str "OM3")]

/-- C7 counterexample: the rendered block of a concrete product ends with
the SKU line, not with the ellipsis marker, and accordingly the formatted
text of the one-product list does not end with the ellipsis either. -/
theorem product_block_not_ellipsis_terminated :
    textEndsWith (renderProduct 1 productC7) "..." = false
    ∧ format_products_context [productC7]
        = "ЗНАЙДЕНІ ТОВАРИ:\n\n" ++ renderProduct 1 productC7
    ∧ textEndsWith (format_products_context [productC7]) "..." = false :=
  ⟨by decide, by decide, by decide⟩

/-- C7 amended: inside each product's rendered block the description line
always ends with the ellipsis marker, regardless of the description's
length, while the block itself always ends with the SKU line followed by a
blank line. -/
theorem product_block_description_ellipsis (i : Nat) (p : Dict) :
    ∃ s, renderProduct i p
        = s ++ ("   Опис: " ++ pyTake (descriptionText p) 200 ++ "...\n")
            ++ ("   SKU: " ++ pyGetStr p "sku" "N/A" ++ "\n\n") :=
  ⟨_, renderProduct_desc_split i p⟩
